import Mathlib

/-!
Shallow embedding of the `hoi-datasets` repository core:
the `BoundingBox` geometry model (`src/hoi/structs/_box.py`),
the sample data model (`src/hoi/structs/_sample.py`) and the
`H2ODataset` loader (`src/hoi/datasets/_h2o.py`).

Coordinates (Python floats) are modelled as rationals; image sizes
(Python ints) as integers.  Python operations that can raise are
embedded as `Except`-returning functions: `/` raises
`ZeroDivisionError` on a zero divisor, `BoundingBox.__post_init__`
raises `ValueError` on a wrong coordinate count, `enum` name lookup
raises `KeyError` on an unknown name, and `dict.__getitem__` raises
`KeyError` on a missing key.
-/

namespace Hoi

/-- The error kinds the embedded code can raise. -/
inductive HoiError where
  | invalidFormat
  | invalidBoundingBox
  | zeroDivision
  | sampleNotFound
deriving DecidableEq, Repr

/-- `BoundingBoxFormat` enum from `_box.py`: members `XYXY`, `XYWH`, `CXCYWH`. -/
inductive BoundingBoxFormat where
  | XYXY
  | XYWH
  | CXCYWH
deriving DecidableEq, Repr

/-- Python `str.upper()`: uppercase every character. -/
def pyUpper (s : String) : String :=
  ⟨s.data.map Char.toUpper⟩

/-- Python `str.strip()`: drop leading and trailing whitespace. -/
def pyStrip (s : String) : String :=
  ⟨((s.data.dropWhile Char.isWhitespace).reverse.dropWhile Char.isWhitespace).reverse⟩

/-- `BoundingBoxFormat.from_str`: `cls[s.upper().strip()]`, i.e. uppercase,
strip whitespace, then look the result up among the member names;
an unknown name raises `KeyError` (the spec's `InvalidFormat`). -/
def BoundingBoxFormat.from_str (s : String) : Except HoiError BoundingBoxFormat :=
  let t := pyStrip (pyUpper s)
  if t = "XYXY" then .ok .XYXY
  else if t = "XYWH" then .ok .XYWH
  else if t = "CXCYWH" then .ok .CXCYWH
  else .error .invalidFormat

/-- `BoundingBox` frozen dataclass from `_box.py`: 4 coordinates,
a format tag and a `normalized` flag. -/
structure BoundingBox where
  coordinates : ℚ × ℚ × ℚ × ℚ
  format : BoundingBoxFormat
  normalized : Bool
deriving DecidableEq, Repr

/-- The `BoundingBox(...)` constructor together with `__post_init__`:
any coordinate count other than 4 raises `ValueError`
(the spec's `InvalidBoundingBox`). -/
def BoundingBox.ofList (cs : List ℚ) (format : BoundingBoxFormat) (normalized : Bool) :
    Except HoiError BoundingBox :=
  match cs with
  | [a, b, c, d] => .ok ⟨(a, b, c, d), format, normalized⟩
  | _ => .error .invalidBoundingBox

/-- `BoundingBox.normalize`: return self when already normalized, otherwise
divide x-coordinates by the width and y-coordinates by the height and set
`normalized=True`.  Python `/` raises `ZeroDivisionError` on a zero divisor. -/
def BoundingBox.normalize (b : BoundingBox) (size : ℤ × ℤ) : Except HoiError BoundingBox :=
  if b.normalized then .ok b
  else
    let (w, h) := size
    if w = 0 ∨ h = 0 then .error .zeroDivision
    else
      let (x0, x1, x2, x3) := b.coordinates
      .ok ⟨(x0 / (w : ℚ), x1 / (h : ℚ), x2 / (w : ℚ), x3 / (h : ℚ)), b.format, true⟩

/-- `BoundingBox.denormalize`: return self when already denormalized, otherwise
multiply by the matching dimension and set `normalized=False`. -/
def BoundingBox.denormalize (b : BoundingBox) (size : ℤ × ℤ) : BoundingBox :=
  if b.normalized then
    let (w, h) := size
    let (x0, x1, x2, x3) := b.coordinates
    ⟨(x0 * (w : ℚ), x1 * (h : ℚ), x2 * (w : ℚ), x3 * (h : ℚ)), b.format, false⟩
  else b

/-- `BoundingBox.to_xyxy`: exhaustive match on the format. -/
def BoundingBox.to_xyxy (b : BoundingBox) : BoundingBox :=
  match b.format with
  | .XYXY => b
  | .XYWH =>
    let (xmin, ymin, w, h) := b.coordinates
    ⟨(xmin, ymin, xmin + w, ymin + h), .XYXY, b.normalized⟩
  | .CXCYWH =>
    let (cx, cy, w, h) := b.coordinates
    ⟨(cx - w / 2, cy - h / 2, cx + w / 2, cy + h / 2), .XYXY, b.normalized⟩

/-- `BoundingBox.to_xywh`: exhaustive match on the format. -/
def BoundingBox.to_xywh (b : BoundingBox) : BoundingBox :=
  match b.format with
  | .XYWH => b
  | .XYXY =>
    let (xmin, ymin, xmax, ymax) := b.coordinates
    ⟨(xmin, ymin, xmax - xmin, ymax - ymin), .XYWH, b.normalized⟩
  | .CXCYWH =>
    let (cx, cy, w, h) := b.coordinates
    ⟨(cx - w / 2, cy - h / 2, w, h), .XYWH, b.normalized⟩

/-- `BoundingBox.to_cxcywh`: exhaustive match on the format. -/
def BoundingBox.to_cxcywh (b : BoundingBox) : BoundingBox :=
  match b.format with
  | .CXCYWH => b
  | .XYXY =>
    let (xmin, ymin, xmax, ymax) := b.coordinates
    ⟨((xmin + xmax) / 2, (ymin + ymax) / 2, xmax - xmin, ymax - ymin), .CXCYWH, b.normalized⟩
  | .XYWH =>
    let (xmin, ymin, w, h) := b.coordinates
    ⟨(xmin + w / 2, ymin + h / 2, w, h), .CXCYWH, b.normalized⟩

/-- `BoundingBox.convert`: exhaustive dispatch on the target format. -/
def BoundingBox.convert (b : BoundingBox) (format : BoundingBoxFormat) : BoundingBox :=
  match format with
  | .XYXY => b.to_xyxy
  | .XYWH => b.to_xywh
  | .CXCYWH => b.to_cxcywh

/-! ## Sample data model (`_sample.py`) -/

/-- `SampleID = NewType("SampleID", str)`. -/
abbrev SampleID := String

/-- `Action` frozen dataclass from `_sample.py`. -/
structure Action where
  verb : String
  subject : ℤ
  target : Option ℤ
  instrument : Option ℤ
deriving DecidableEq, Repr

/-- `Entity` frozen dataclass from `_sample.py`. -/
structure Entity where
  bbox : BoundingBox
  category : String
deriving DecidableEq, Repr

/-- `Sample` frozen dataclass from `_sample.py`; `image_path` is modelled
as the path string. -/
structure Sample where
  image_path : String
  entities : List Entity
  actions : List Action
  splits : List String
deriving DecidableEq, Repr

/-! ## H2O dataset loader (`_h2o.py`)

The filesystem is abstracted away: the parsed JSON contents of
`categories.json`, `verbs.json` and each `{split}.json` are inputs.
-/

/-- One entity record of a `{split}.json` manifest. -/
structure RawEntity where
  bbox : List ℚ
  category : String
deriving DecidableEq, Repr

/-- One action record of a `{split}.json` manifest. -/
structure RawAction where
  verb : String
  subject : ℤ
  target : Option ℤ
  instrument : Option ℤ
deriving DecidableEq, Repr

/-- One sample record of a `{split}.json` manifest. -/
structure RawSample where
  id : String
  entities : List RawEntity
  actions : List RawAction
deriving DecidableEq, Repr

/-- The parsed on-disk data of one dataset root: `categories.json`,
`verbs.json`, and the records of each `{split}.json`. -/
structure RawH2OData where
  categories : List String
  verbs : List String
  splitData : String → List RawSample

/-- Entity construction inside `H2ODataset._get_samples`:
`Entity(bbox=BoundingBox(entity_data["bbox"], BoundingBoxFormat.XYXY, True),
category=entity_data["category"])`. -/
def buildEntity (e : RawEntity) : Except HoiError Entity := do
  let bb ← BoundingBox.ofList e.bbox .XYXY true
  pure ⟨bb, e.category⟩

/-- Action construction inside `H2ODataset._get_samples`. -/
def buildAction (a : RawAction) : Action :=
  ⟨a.verb, a.subject, a.target, a.instrument⟩

/-- Per-record body of the loop in `H2ODataset._get_samples`: resolves the
image path as `path/images/{split}/{id}.jpg` and builds the `Sample` with
`splits=[split]`. -/
def buildSample (path split : String) (r : RawSample) : Except HoiError (SampleID × Sample) := do
  let ents ← r.entities.mapM buildEntity
  pure (r.id,
    ⟨path ++ "/images/" ++ split ++ "/" ++ r.id ++ ".jpg",
     ents, r.actions.map buildAction, [split]⟩)

/-- `H2ODataset._get_samples(split)`: reads `{split}.json` and builds the
`(id, sample)` pairs in order; any record failure aborts the whole list. -/
def getSamples (path : String) (d : RawH2OData) (split : String) :
    Except HoiError (List (SampleID × Sample)) :=
  (d.splitData split).mapM (buildSample path split)

/-- Python `dict` lookup `m[k]`: the value stored at the first (unique)
occurrence of the key, if any. -/
def dictLookup {K V : Type} [DecidableEq K] (m : List (K × V)) (k : K) : Option V :=
  match m with
  | [] => none
  | (k', v) :: rest => if k' = k then some v else dictLookup rest k

/-- Python `dict` insertion `m[k] = v`: replaces the value at an existing
key in place, otherwise appends the new pair at the end. -/
def dictInsert {K V : Type} [DecidableEq K] (m : List (K × V)) (k : K) (v : V) : List (K × V) :=
  match m with
  | [] => [(k, v)]
  | (k', v') :: rest => if k' = k then (k', v) :: rest else (k', v') :: dictInsert rest k v

/-- A Python dict comprehension over a pair list: successive insertions into
an initially empty dict. -/
def buildDict {K V : Type} [DecidableEq K] (ps : List (K × V)) : List (K × V) :=
  ps.foldl (fun m p => dictInsert m p.1 p.2) []

/-- The in-memory `H2ODataset` after `__init__`. -/
structure H2ODataset where
  categories : List String
  verbs : List String
  samples : List (SampleID × Sample)
deriving DecidableEq, Repr

/-- `H2ODataset.splits` property: the constant `["train", "test"]`. -/
def H2ODataset.splits (_ : H2ODataset) : List String :=
  ["train", "test"]

/-- `H2ODataset.__init__`: read categories and verbs, then build the sample
dict by the comprehension
`{id: sample for split in self.splits for id, sample in self._get_samples(split)}`,
iterating splits in the fixed order `["train", "test"]`; a failure in
either split aborts the whole load. -/
def loadH2O (path : String) (d : RawH2OData) : Except HoiError H2ODataset :=
  match getSamples path d "train" with
  | .error e => .error e
  | .ok tr =>
    match getSamples path d "test" with
    | .error e => .error e
    | .ok te => .ok ⟨d.categories, d.verbs, buildDict (tr ++ te)⟩

/-- `H2ODataset.__getitem__`: `self._samples[id]`; a missing key raises
`KeyError` (the spec's `SampleNotFound`). -/
def H2ODataset.getItem (ds : H2ODataset) (i : SampleID) : Except HoiError Sample :=
  match dictLookup ds.samples i with
  | some s => .ok s
  | none => .error .sampleNotFound

/-! ## Concrete data used by the dataset witnesses -/

/-- The sample that `_get_samples` builds from the train record of
`rawDup` below. -/
def trainSampleW : Sample :=
  ⟨"root/images/train/0001.jpg", [⟨⟨(1, 2, 3, 4), .XYXY, true⟩, "person"⟩],
    [], ["train"]⟩

/-- The sample that `_get_samples` builds from the test record of
`rawDup` below. -/
def testSampleW : Sample :=
  ⟨"root/images/test/0001.jpg", [], [⟨"kick", 0, none, none⟩], ["test"]⟩

/-- A raw dataset whose train and test manifests both define sample id
`"0001"`, with different content. -/
def rawDup : RawH2OData :=
  ⟨["person"], ["kick"],
    fun split =>
      if split = "train" then [⟨"0001", [⟨[1, 2, 3, 4], "person"⟩], []⟩]
      else if split = "test" then [⟨"0001", [], [⟨"kick", 0, none, none⟩]⟩]
      else []⟩

/-- The dataset `loadH2O` constructs from `rawDup`: one entry for
`"0001"`, holding the test split's sample. -/
def dsDup : H2ODataset :=
  ⟨["person"], ["kick"], [("0001", testSampleW)]⟩

/-! ## Dictionary lemmas

Facts about the Python-dict model used by the loader: insertion keeps keys
unique, and lookup after a sequence of insertions returns the value of the
last insertion for the key.
-/

theorem dictLookup_append {K V : Type} [DecidableEq K] (l₁ l₂ : List (K × V)) (k : K) :
    dictLookup (l₁ ++ l₂) k = ((dictLookup l₁ k).orElse fun _ => dictLookup l₂ k) := by
  induction l₁ with
  | nil => simp [dictLookup]
  | cons p rest ih =>
    obtain ⟨k', v⟩ := p
    by_cases hk : k' = k <;> simp [dictLookup, hk, ih]

theorem dictLookup_dictInsert {K V : Type} [DecidableEq K] (m : List (K × V))
    (k₀ k : K) (v₀ : V) :
    dictLookup (dictInsert m k₀ v₀) k = if k₀ = k then some v₀ else dictLookup m k := by
  induction m with
  | nil => simp [dictInsert, dictLookup]
  | cons p rest ih =>
    obtain ⟨k', v'⟩ := p
    by_cases h1 : k' = k₀
    · subst h1
      by_cases h2 : k' = k <;> simp [dictInsert, dictLookup, h2]
    · have hstep : dictInsert ((k', v') :: rest) k₀ v₀ = (k', v') :: dictInsert rest k₀ v₀ := by
        simp [dictInsert, h1]
      rw [hstep]
      by_cases h2 : k' = k
      · have hk : ¬ (k₀ = k) := fun he => h1 (h2.trans he.symm)
        simp [dictLookup, h2, hk]
      · simp [dictLookup, h2, ih]

theorem keys_dictInsert {K V : Type} [DecidableEq K] (m : List (K × V)) (k₀ : K) (v₀ : V) :
    (dictInsert m k₀ v₀).map Prod.fst =
      if k₀ ∈ m.map Prod.fst then m.map Prod.fst else m.map Prod.fst ++ [k₀] := by
  induction m with
  | nil => simp [dictInsert]
  | cons p rest ih =>
    obtain ⟨k', v'⟩ := p
    by_cases h1 : k' = k₀
    · subst h1; simp [dictInsert]
    · have hne : ¬ (k₀ = k') := fun he => h1 he.symm
      by_cases h2 : k₀ ∈ rest.map Prod.fst <;>
        simp [dictInsert, h1, ih, hne, h2]

theorem nodup_keys_dictInsert {K V : Type} [DecidableEq K] (m : List (K × V))
    (k₀ : K) (v₀ : V) (h : (m.map Prod.fst).Nodup) :
    ((dictInsert m k₀ v₀).map Prod.fst).Nodup := by
  rw [keys_dictInsert]
  by_cases hm : k₀ ∈ m.map Prod.fst
  · simpa [hm] using h
  · rw [if_neg hm]
    simp [List.nodup_append, h, hm]

theorem nodup_keys_foldl_dictInsert {K V : Type} [DecidableEq K] (ps : List (K × V))
    (m : List (K × V)) (h : (m.map Prod.fst).Nodup) :
    (((ps.foldl (fun m p => dictInsert m p.1 p.2) m)).map Prod.fst).Nodup := by
  induction ps generalizing m with
  | nil => simpa using h
  | cons p ps ih => exact ih _ (nodup_keys_dictInsert _ _ _ h)

theorem dictLookup_foldl_dictInsert {K V : Type} [DecidableEq K] (ps : List (K × V))
    (m : List (K × V)) (k : K) :
    dictLookup (ps.foldl (fun m p => dictInsert m p.1 p.2) m) k =
      ((dictLookup ps.reverse k).orElse fun _ => dictLookup m k) := by
  induction ps generalizing m with
  | nil => simp [dictLookup]
  | cons p ps ih =>
    obtain ⟨k₀, v₀⟩ := p
    simp only [List.foldl_cons, List.reverse_cons]
    rw [ih, dictLookup_append, dictLookup_dictInsert]
    cases hrev : dictLookup ps.reverse k <;> by_cases hk : k₀ = k <;>
      simp [dictLookup, hk, hrev]

theorem dictLookup_buildDict {K V : Type} [DecidableEq K] (ps : List (K × V)) (k : K) :
    dictLookup (buildDict ps) k = dictLookup ps.reverse k := by
  rw [buildDict, dictLookup_foldl_dictInsert]
  cases dictLookup ps.reverse k <;> simp [dictLookup]

theorem nodup_keys_buildDict {K V : Type} [DecidableEq K] (ps : List (K × V)) :
    ((buildDict ps).map Prod.fst).Nodup :=
  nodup_keys_foldl_dictInsert ps [] (by simp)

theorem exists_dictLookup_of_mem_keys {K V : Type} [DecidableEq K] (m : List (K × V))
    (k : K) (h : k ∈ m.map Prod.fst) : ∃ v, dictLookup m k = some v := by
  induction m with
  | nil => simp at h
  | cons p rest ih =>
    obtain ⟨k', v'⟩ := p
    by_cases hk : k' = k
    · exact ⟨v', by simp [dictLookup, hk]⟩
    · rw [List.map_cons] at h
      have h' : k ∈ rest.map Prod.fst := by
        rcases List.mem_cons.mp h with h1 | h1
        · exact absurd h1.symm hk
        · exact h1
      obtain ⟨v, hv⟩ := ih h'
      exact ⟨v, by simp [dictLookup, hk, hv]⟩

theorem mem_keys_of_dictLookup_some {K V : Type} [DecidableEq K] (m : List (K × V))
    (k : K) (v : V) (h : dictLookup m k = some v) : k ∈ m.map Prod.fst := by
  induction m with
  | nil => simp [dictLookup] at h
  | cons p rest ih =>
    obtain ⟨k', v'⟩ := p
    by_cases hk : k' = k
    · simp [hk]
    · have h' : dictLookup rest k = some v := by simpa [dictLookup, hk] using h
      simpa using Or.inr (ih h')

/-! ## Claim theorems -/

/-- C1: the format conversions implement the stated formulas: `to_xyxy`
maps XYWH `(x, y, w, h)` to `(x, y, x+w, y+h)` and CXCYWH `(cx, cy, w, h)`
to `(cx-w/2, cy-h/2, cx+w/2, cy+h/2)`; `to_xywh` maps XYXY
`(xmin, ymin, xmax, ymax)` to `(xmin, ymin, xmax-xmin, ymax-ymin)`;
concretely, XYWH `(10, 20, 30, 40)` converts to XYXY `(10, 20, 40, 60)`,
CXCYWH `(25, 40, 30, 40)` converts to XYXY `(10, 20, 40, 60)`, and XYXY
`(10, 20, 40, 60)` converts to XYWH `(10, 20, 30, 40)`. -/
theorem C1_conversion_formulas :
    (∀ (x y w h : ℚ) (n : Bool),
      (BoundingBox.mk (x, y, w, h) .XYWH n).to_xyxy =
        ⟨(x, y, x + w, y + h), .XYXY, n⟩) ∧
    (∀ (cx cy w h : ℚ) (n : Bool),
      (BoundingBox.mk (cx, cy, w, h) .CXCYWH n).to_xyxy =
        ⟨(cx - w / 2, cy - h / 2, cx + w / 2, cy + h / 2), .XYXY, n⟩) ∧
    (∀ (x0 y0 x1 y1 : ℚ) (n : Bool),
      (BoundingBox.mk (x0, y0, x1, y1) .XYXY n).to_xywh =
        ⟨(x0, y0, x1 - x0, y1 - y0), .XYWH, n⟩) ∧
    (BoundingBox.mk (10, 20, 30, 40) .XYWH false).to_xyxy =
      ⟨(10, 20, 40, 60), .XYXY, false⟩ ∧
    (BoundingBox.mk (25, 40, 30, 40) .CXCYWH false).to_xyxy =
      ⟨(10, 20, 40, 60), .XYXY, false⟩ ∧
    (BoundingBox.mk (10, 20, 40, 60) .XYXY false).to_xywh =
      ⟨(10, 20, 30, 40), .XYWH, false⟩ := by
  refine ⟨fun x y w h n => rfl, fun cx cy w h n => rfl, fun x0 y0 x1 y1 n => rfl,
    ?_, ?_, ?_⟩ <;>
  · simp only [BoundingBox.to_xyxy, BoundingBox.to_xywh, BoundingBox.mk.injEq,
      Prod.mk.injEq]
    norm_num

/-- C2: for every `BoundingBox` `b` and target format `f`,
`(b.convert f).convert b.format = b` (exact over the rationals, hence within
any floating-point tolerance), and `convert` dispatches to the matching
`to_xyxy`/`to_xywh`/`to_cxcywh` over the closed three-variant enumeration. -/
theorem C2_convert_round_trip :
    (∀ (b : BoundingBox) (f : BoundingBoxFormat), (b.convert f).convert b.format = b) ∧
    (∀ b : BoundingBox, b.convert .XYXY = b.to_xyxy ∧ b.convert .XYWH = b.to_xywh ∧
      b.convert .CXCYWH = b.to_cxcywh) := by
  constructor
  · rintro ⟨⟨x0, x1, x2, x3⟩, fmt, n⟩ f
    cases fmt <;> cases f <;>
      (simp only [BoundingBox.convert, BoundingBox.to_xyxy, BoundingBox.to_xywh,
        BoundingBox.to_cxcywh, BoundingBox.mk.injEq, Prod.mk.injEq]
       try norm_num
       try ring_nf
       try simp)
  · exact fun b => ⟨rfl, rfl, rfl⟩

/-- C5: each of `to_xyxy`, `to_xywh`, `to_cxcywh` leaves the `normalized`
flag of the result equal to the receiver's, returns the receiver itself
unchanged when it is already in the target format, and is idempotent. -/
theorem C5_conversion_flag_and_idempotence (b : BoundingBox) :
    (b.to_xyxy.normalized = b.normalized ∧ b.to_xywh.normalized = b.normalized ∧
      b.to_cxcywh.normalized = b.normalized) ∧
    ((∀ (c : ℚ × ℚ × ℚ × ℚ) (n : Bool),
        (BoundingBox.mk c .XYXY n).to_xyxy = BoundingBox.mk c .XYXY n) ∧
      (∀ (c : ℚ × ℚ × ℚ × ℚ) (n : Bool),
        (BoundingBox.mk c .XYWH n).to_xywh = BoundingBox.mk c .XYWH n) ∧
      (∀ (c : ℚ × ℚ × ℚ × ℚ) (n : Bool),
        (BoundingBox.mk c .CXCYWH n).to_cxcywh = BoundingBox.mk c .CXCYWH n)) ∧
    (b.to_xyxy.to_xyxy = b.to_xyxy ∧ b.to_xywh.to_xywh = b.to_xywh ∧
      b.to_cxcywh.to_cxcywh = b.to_cxcywh) := by
  obtain ⟨⟨x0, x1, x2, x3⟩, fmt, n⟩ := b
  refine ⟨?_, ⟨fun c n => rfl, fun c n => rfl, fun c n => rfl⟩, ?_⟩ <;>
  · cases fmt <;>
      simp [BoundingBox.to_xyxy, BoundingBox.to_xywh, BoundingBox.to_cxcywh]

/-- C3 counterexample: a non-normalized box normalized with width 0 raises
`ZeroDivisionError` and does not return the divided box the claim promises. -/
theorem C3_counterexample :
    (⟨(1, 2, 3, 4), .XYXY, false⟩ : BoundingBox).normalize (0, 5) =
      .error .zeroDivision ∧
    (⟨(1, 2, 3, 4), .XYXY, false⟩ : BoundingBox).normalize (0, 5) ≠
      .ok ⟨((1 : ℚ) / ((0 : ℤ) : ℚ), (2 : ℚ) / ((5 : ℤ) : ℚ),
        (3 : ℚ) / ((0 : ℤ) : ℚ), (4 : ℚ) / ((5 : ℤ) : ℚ)), .XYXY, true⟩ :=
  ⟨rfl, fun h => by
    rw [show (⟨(1, 2, 3, 4), .XYXY, false⟩ : BoundingBox).normalize (0, 5) =
      .error .zeroDivision from rfl] at h
    exact Except.noConfusion h⟩

/-- C3 (amended): for every `BoundingBox` `b` and image size with nonzero
width and height, if `b.normalized` is true then `normalize` returns `b`
itself unchanged; otherwise it returns a new box whose first and third
coordinates are divided by the width, whose second and fourth coordinates
are divided by the height, whose `normalized` flag is true and whose
format equals `b.format`.  (With a zero width or height the code instead
raises a division-by-zero error.) -/
theorem C3_normalize_spec (b : BoundingBox) (w h : ℤ) (hw : w ≠ 0) (hh : h ≠ 0) :
    b.normalize (w, h) =
      if b.normalized then .ok b
      else .ok ⟨(b.coordinates.1 / (w : ℚ), b.coordinates.2.1 / (h : ℚ),
        b.coordinates.2.2.1 / (w : ℚ), b.coordinates.2.2.2 / (h : ℚ)),
        b.format, true⟩ := by
  obtain ⟨⟨x0, x1, x2, x3⟩, fmt, n⟩ := b
  cases n <;> simp [BoundingBox.normalize, hw, hh]

/-- C3 witness: concrete instance of the amended normalize description. -/
theorem C3_normalize_spec_witness :
    (⟨(10, 20, 30, 40), .XYXY, false⟩ : BoundingBox).normalize (2, 4) =
      if (⟨(10, 20, 30, 40), .XYXY, false⟩ : BoundingBox).normalized then
        .ok (⟨(10, 20, 30, 40), .XYXY, false⟩ : BoundingBox)
      else .ok ⟨((10 : ℚ) / ((2 : ℤ) : ℚ), (20 : ℚ) / ((4 : ℤ) : ℚ),
        (30 : ℚ) / ((2 : ℤ) : ℚ), (40 : ℚ) / ((4 : ℤ) : ℚ)), .XYXY, true⟩ :=
  C3_normalize_spec ⟨(10, 20, 30, 40), .XYXY, false⟩ 2 4 (by decide) (by decide)

/-- C4: for every non-normalized `BoundingBox` and positive size,
normalizing and then denormalizing with the same size reproduces the
original box exactly (same coordinates, format and flag). -/
theorem C4_normalize_denormalize_inverse (b : BoundingBox) (w h : ℤ)
    (hn : b.normalized = false) (hw : 0 < w) (hh : 0 < h) :
    (b.normalize (w, h)).map (fun b' => b'.denormalize (w, h)) = .ok b := by
  obtain ⟨⟨x0, x1, x2, x3⟩, fmt, n⟩ := b
  cases n
  · have hw' : (w : ℚ) ≠ 0 := Int.cast_ne_zero.mpr hw.ne'
    have hh' : (h : ℚ) ≠ 0 := Int.cast_ne_zero.mpr hh.ne'
    simp [BoundingBox.normalize, BoundingBox.denormalize, Except.map, hw.ne',
      hh.ne', div_mul_cancel₀, hw', hh']
  · simp at hn

/-- C4 witness: concrete normalize/denormalize round trip. -/
theorem C4_normalize_denormalize_inverse_witness :
    ((⟨(10, 20, 30, 40), .XYXY, false⟩ : BoundingBox).normalize (2, 4)).map
      (fun b' => b'.denormalize (2, 4)) =
      .ok (⟨(10, 20, 30, 40), .XYXY, false⟩ : BoundingBox) :=
  C4_normalize_denormalize_inverse ⟨(10, 20, 30, 40), .XYXY, false⟩ 2 4 rfl
    (by decide) (by decide)

/-- C6: `from_str` parsing is case-insensitive and whitespace-stripped:
`"xyxy"`, `"XYXY"` and `" xyxy "` all parse to `XYXY`, and any string
that does not name a variant (such as `"bogus"`) fails with
`InvalidFormat`. -/
theorem C6_from_str_parsing (s : String) :
    BoundingBoxFormat.from_str "xyxy" = .ok .XYXY ∧
    BoundingBoxFormat.from_str "XYXY" = .ok .XYXY ∧
    BoundingBoxFormat.from_str " xyxy " = .ok .XYXY ∧
    BoundingBoxFormat.from_str "bogus" = .error .invalidFormat ∧
    (pyStrip (pyUpper s) ≠ "XYXY" → pyStrip (pyUpper s) ≠ "XYWH" →
      pyStrip (pyUpper s) ≠ "CXCYWH" →
      BoundingBoxFormat.from_str s = .error .invalidFormat) := by
  refine ⟨rfl, rfl, rfl, rfl, fun h1 h2 h3 => ?_⟩
  simp [BoundingBoxFormat.from_str, h1, h2, h3]

/-- C6 witness: `"bogus"` does not name a variant and parsing it fails. -/
theorem C6_from_str_parsing_witness :
    BoundingBoxFormat.from_str "bogus" = .error .invalidFormat :=
  (C6_from_str_parsing "bogus").2.2.2.2 (by decide) (by decide) (by decide)

/-- C7: constructing a `BoundingBox` from a coordinate list whose length is
not 4 fails with `InvalidBoundingBox`; with exactly 4 coordinates it
succeeds. -/
theorem C7_constructor_arity (cs : List ℚ) (f : BoundingBoxFormat) (n : Bool)
    (hlen : cs.length ≠ 4) :
    BoundingBox.ofList cs f n = .error .invalidBoundingBox ∧
    (∀ a b c d : ℚ, BoundingBox.ofList [a, b, c, d] f n = .ok ⟨(a, b, c, d), f, n⟩) := by
  refine ⟨?_, fun a b c d => rfl⟩
  rcases cs with _ | ⟨a, _ | ⟨b, _ | ⟨c, _ | ⟨d, _ | ⟨e, rest⟩⟩⟩⟩⟩
  · rfl
  · rfl
  · rfl
  · rfl
  · exact absurd rfl hlen
  · rfl

/-- C7 witness: 3 coordinates fail, 4 coordinates succeed. -/
theorem C7_constructor_arity_witness :
    BoundingBox.ofList [1, 2, 3] .XYXY true = .error .invalidBoundingBox ∧
    BoundingBox.ofList [1, 2, 3, 4] .XYXY true = .ok ⟨(1, 2, 3, 4), .XYXY, true⟩ :=
  ⟨(C7_constructor_arity [1, 2, 3] .XYXY true (by decide)).1,
   (C7_constructor_arity [1, 2, 3] .XYXY true (by decide)).2 1 2 3 4⟩

/-- C10: `normalize` divides without a guard, so for every non-normalized
box, a size whose width or height is zero raises a division-by-zero error
instead of returning a value. -/
theorem C10_normalize_zero_division (b : BoundingBox) (w h : ℤ)
    (hn : b.normalized = false) (hz : w = 0 ∨ h = 0) :
    b.normalize (w, h) = .error .zeroDivision := by
  obtain ⟨⟨x0, x1, x2, x3⟩, fmt, n⟩ := b
  cases n
  · simp [BoundingBox.normalize, hz]
  · simp at hn

/-- C8: under the fixed split-load order `["train", "test"]`, if the train
and test manifests both define a record with the same id, the constructed
dataset holds exactly one entry for that id, and its content is the one
built from the split loaded last: looking the id up in the dataset gives
the same result as looking it up among the test split's samples (latest
test record first). -/
theorem C8_last_write_wins (path : String) (d : RawH2OData) (ds : H2ODataset)
    (tr te : List (SampleID × Sample)) (i : SampleID)
    (hload : loadH2O path d = .ok ds)
    (htr : getSamples path d "train" = .ok tr)
    (hte : getSamples path d "test" = .ok te)
    (hmem : i ∈ te.map Prod.fst) :
    (ds.samples.map Prod.fst).count i = 1 ∧
    dictLookup ds.samples i = dictLookup te.reverse i := by
  have hds : ds.samples = buildDict (tr ++ te) := by
    simp only [loadH2O, htr, hte] at hload
    injection hload with hload
    rw [← hload]
  have hrev : i ∈ te.reverse.map Prod.fst := by simpa using hmem
  obtain ⟨v, hv⟩ := exists_dictLookup_of_mem_keys te.reverse i hrev
  have hlook : dictLookup ds.samples i = dictLookup te.reverse i := by
    rw [hds, dictLookup_buildDict, List.reverse_append, dictLookup_append, hv]
    simp
  refine ⟨?_, hlook⟩
  have hnd : (ds.samples.map Prod.fst).Nodup := by
    rw [hds]; exact nodup_keys_buildDict _
  have hm : i ∈ ds.samples.map Prod.fst :=
    mem_keys_of_dictLookup_some _ _ v (hlook.trans hv)
  exact List.count_eq_one_of_mem hnd hm

/-- C8 witness: concrete duplicated id `"0001"` across train and test. -/
theorem C8_last_write_wins_witness :
    (dsDup.samples.map Prod.fst).count "0001" = 1 ∧
    dictLookup dsDup.samples "0001" =
      dictLookup ([("0001", testSampleW)] : List (SampleID × Sample)).reverse "0001" :=
  C8_last_write_wins "root" rawDup dsDup [("0001", trainSampleW)]
    [("0001", testSampleW)] "0001" rfl rfl rfl (by simp)

/-- C9: `__getitem__` on a dataset returns the stored sample for every
present id and fails with the typed `SampleNotFound` error for every
absent id. -/
theorem C9_getitem_lookup (ds : H2ODataset) (i : SampleID) :
    (∀ s : Sample, dictLookup ds.samples i = some s → ds.getItem i = .ok s) ∧
    (i ∉ ds.samples.map Prod.fst → ds.getItem i = .error .sampleNotFound) := by
  constructor
  · intro s hs
    simp [H2ODataset.getItem, hs]
  · intro hmem
    cases hv : dictLookup ds.samples i with
    | none => simp [H2ODataset.getItem, hv]
    | some v => exact absurd (mem_keys_of_dictLookup_some _ _ _ hv) hmem

/-- C9 witness: lookup of a present and of an absent id. -/
theorem C9_getitem_lookup_witness :
    (H2ODataset.mk [] [] [("a", ⟨"p.jpg", [], [], ["train"]⟩)]).getItem "a" =
      .ok ⟨"p.jpg", [], [], ["train"]⟩ ∧
    (H2ODataset.mk [] [] [("a", ⟨"p.jpg", [], [], ["train"]⟩)]).getItem "b" =
      .error .sampleNotFound :=
  ⟨(C9_getitem_lookup (H2ODataset.mk [] [] [("a", ⟨"p.jpg", [], [], ["train"]⟩)]) "a").1
      ⟨"p.jpg", [], [], ["train"]⟩ rfl,
   (C9_getitem_lookup (H2ODataset.mk [] [] [("a", ⟨"p.jpg", [], [], ["train"]⟩)]) "b").2
      (by decide)⟩

/-- C10 witness: zero width raises the division error. -/
theorem C10_normalize_zero_division_witness :
    (⟨(10, 20, 30, 40), .XYXY, false⟩ : BoundingBox).normalize (0, 4) =
      .error .zeroDivision :=
  C10_normalize_zero_division ⟨(10, 20, 30, 40), .XYXY, false⟩ 0 4 rfl (Or.inl rfl)

end Hoi
